import Mathlib

/- Shallow embedding of the temperature/humidity OCR pipeline of this
repository (`ocr.py`, `llm_helper.py`, `app_llm.py`): numeric token parsing,
the merge/fallback logic around the secondary (LLM) recognizer, and date
extraction.  The image-processing stages (OpenCV, EasyOCR) are outside the
embedding; the functions below consume the OCR token lists those stages
produce, exactly as `run_ocr` does from step 5 onwards.  Python floats are
modelled as rationals; regex searching is embedded per pattern with Python
`re.search` semantics (leftmost match, greedy bounded quantifiers with
backtracking) over the ASCII reading of the character classes, which is
exact on the OCR token alphabet (digits, dot, percent, spaces). -/

/-- ASCII digit test: the digit class of the embedded regexes. -/
def isDigitC (c : Char) : Bool := '0' ≤ c && c ≤ '9'

/-- ASCII word character: the word class used by the word-boundary assertion. -/
def isWordC (c : Char) : Bool := c.isAlphanum || c = '_'

/-- ASCII whitespace: the space class of the embedded regexes. -/
def isSpaceC (c : Char) : Bool := c = ' ' || c = '\t' || c = '\n' || c = '\r'

/-- Numeric value of a digit character. -/
def digitVal (c : Char) : ℕ := c.toNat - 48

/-- Whether the character left of the current position is a word character
(start of string counts as non-word). -/
def prevIsWord : Option Char → Bool
  | some c => isWordC c
  | none => false

/-- Word boundary between the previous character and the character at the
current position. -/
def boundaryBefore (prev : Option Char) (c : Char) : Bool :=
  isWordC c != prevIsWord prev

/-- Word boundary between a just-consumed character and the rest of the
input (end of string counts as non-word). -/
def bBetween (c : Char) : List Char → Bool
  | [] => isWordC c
  | d :: _ => isWordC c != isWordC d

/-- Word boundary right after a consumed digit: the next character must be
absent or non-word. -/
def bAfterD : List Char → Bool
  | [] => true
  | d :: _ => !isWordC d

/-- Leftmost-match search: try the position matcher at every position from
left to right, threading the previous character for boundary assertions.
This is the `re.search` position loop. -/
def searchFrom {α : Type} (f : Option Char → List Char → Option α) :
    Option Char → List Char → Option α
  | prev, [] => f prev []
  | prev, c :: rest =>
    match f prev (c :: rest) with
    | some r => some r
    | none => searchFrom f (some c) rest

/-- Decimal separator class of the temperature pattern. -/
def isSepTC (c : Char) : Bool := c = '.' || c = ','

/-- Greedy 2-digit and 3-digit alternatives of the temperature decimal
pattern after the optional sign: 2 or 3 digits (3 tried first), a separator,
one digit, then a word boundary.  Returns the matched characters. -/
def tryT1core : List Char → Option (List Char)
  | a :: b :: c :: rest =>
    if isDigitC a && isDigitC b then
      if isDigitC c then
        match rest with
        | s :: d :: r2 =>
          if isSepTC s && isDigitC d && bAfterD r2 then some [a, b, c, s, d] else none
        | _ => none
      else
        if isSepTC c then
          match rest with
          | d :: r2 => if isDigitC d && bAfterD r2 then some [a, b, c, d] else none
          | [] => none
        else none
    else none
  | _ => none

/-- Position matcher for the temperature decimal pattern: an optional minus
sign, two or three digits, a dot-or-comma separator, one digit, and a word
boundary after.  An unconsumed minus cannot be rescued by the optional
alternative because a digit never matches the minus itself. -/
def tryT1 (_ : Option Char) (cs : List Char) : Option String :=
  match cs with
  | '-' :: rest => (tryT1core rest).map (fun l => ⟨'-' :: l⟩)
  | _ => (tryT1core cs).map (fun l => ⟨l⟩)

/-- Greedy 2-or-3 digit run followed by a word boundary: 3 digits are tried
first, backtracking to 2 when the boundary after the third digit fails. -/
def tryDigits23 : List Char → Option (List Char)
  | a :: b :: c :: rest =>
    if isDigitC a && isDigitC b && isDigitC c && bAfterD rest then some [a, b, c]
    else if isDigitC a && isDigitC b && bAfterD (c :: rest) then some [a, b]
    else none
  | [a, b] => if isDigitC a && isDigitC b then some [a, b] else none
  | _ => none

/-- Position matcher for the bare-integer temperature pattern: a word
boundary, an optional minus sign, two or three digits, a word boundary.
The boundary is positional, so it does not depend on whether the optional
minus is consumed. -/
def tryT2 (prev : Option Char) (cs : List Char) : Option String :=
  match cs with
  | [] => none
  | c :: _ =>
    if boundaryBefore prev c then
      match cs with
      | '-' :: rest => (tryDigits23 rest).map (fun l => ⟨'-' :: l⟩)
      | _ => (tryDigits23 cs).map (fun l => ⟨l⟩)
    else none

/-- Position matcher for the standalone 3-digit-run pattern: a word
boundary, exactly three digits, a word boundary. -/
def tryT3 (prev : Option Char) (cs : List Char) : Option String :=
  match cs with
  | a :: b :: c :: rest =>
    if boundaryBefore prev a && isDigitC a && isDigitC b && isDigitC c && bAfterD rest then
      some ⟨[a, b, c]⟩
    else none
  | _ => none

/-- Tail of the humidity pattern after the captured digits: optional spaces,
an optional percent sign, then a word boundary.  All backtracking branches
are collected by disjunction; they never affect the captured digits, only
whether the position matches at all. -/
def hTailNoSpace (p : Char) (cs : List Char) : Bool :=
  match cs with
  | '%' :: rest => bBetween '%' rest || bBetween p ('%' :: rest)
  | _ => bBetween p cs

/-- Optional-whitespace part of the humidity pattern tail, consuming zero or
more space characters before the optional percent sign. -/
def hTail (p : Char) : List Char → Bool
  | [] => hTailNoSpace p []
  | c :: rest =>
    if isSpaceC c then hTail c rest || hTailNoSpace p (c :: rest)
    else hTailNoSpace p (c :: rest)

/-- Position matcher for the humidity pattern: a word boundary, one to three
digits taken greedily, optional spaces, an optional percent sign, a word
boundary. -/
def tryH (prev : Option Char) (cs : List Char) : Option String :=
  match cs with
  | [] => none
  | c0 :: _ =>
    if boundaryBefore prev c0 then
      match cs with
      | a :: b :: c :: rest =>
        if isDigitC a && isDigitC b && isDigitC c && hTail c rest then some ⟨[a, b, c]⟩
        else if isDigitC a && isDigitC b && hTail b (c :: rest) then some ⟨[a, b]⟩
        else if isDigitC a && hTail a (b :: c :: rest) then some ⟨[a]⟩
        else none
      | [a, b] =>
        if isDigitC a && isDigitC b && hTail b [] then some ⟨[a, b]⟩
        else if isDigitC a && hTail a [b] then some ⟨[a]⟩
        else none
      | [a] => if isDigitC a && hTail a [] then some ⟨[a]⟩ else none
      | [] => none
    else none

/-- Digits of a character list read as a natural number, most significant
first. -/
def digitsToNat (ds : List Char) : ℕ := ds.foldl (fun a c => 10 * a + digitVal c) 0

/-- Longest digit run at the head of the input, with the remainder. -/
def takeDigits (cs : List Char) : List Char × List Char :=
  (cs.takeWhile isDigitC, cs.dropWhile isDigitC)

/-- Optional exponent part of a Python float literal, applied to the
already-parsed mantissa; the whole remaining input must be consumed. -/
def parseExpPart (m : ℚ) (cs : List Char) : Option ℚ :=
  match cs with
  | [] => some m
  | e :: r =>
    if e = 'e' || e = 'E' then
      let (pos, r1) : Bool × List Char :=
        match r with
        | '-' :: r2 => (false, r2)
        | '+' :: r2 => (true, r2)
        | _ => (true, r)
      let (ds, r2) := takeDigits r1
      if ds ≠ [] ∧ r2 = [] then
        some (if pos then m * (10 : ℚ) ^ digitsToNat ds else m / (10 : ℚ) ^ digitsToNat ds)
      else none
    else none

/-- Python `float()` on a cleaned character list: optional sign, digits with
an optional fractional part (or a leading dot with digits), and an optional
exponent.  The special forms `inf`, `nan` and digit-group underscores that
`float()` also accepts cannot arise from this pipeline's token alphabet and
are not modelled. -/
def floatParse (cs : List Char) : Option ℚ :=
  let (neg, cs1) : Bool × List Char :=
    match cs with
    | '-' :: r => (true, r)
    | '+' :: r => (false, r)
    | _ => (false, cs)
  let (ds, r1) := takeDigits cs1
  let core : Option ℚ :=
    match r1 with
    | '.' :: r2 =>
      let (fs, r3) := takeDigits r2
      if ds = [] ∧ fs = [] then none
      else parseExpPart ((digitsToNat ds : ℚ) + (digitsToNat fs : ℚ) / (10 : ℚ) ^ fs.length) r3
    | _ => if ds = [] then none else parseExpPart (digitsToNat ds : ℚ) r1
  match core with
  | some v => some (if neg then -v else v)
  | none => none

/-- Single-character OCR-misread substitutions of `_norm_num`. -/
def fixGlyph (c : Char) : Char :=
  if c = 'O' || c = 'o' then '0'
  else if c = 'I' || c = 'l' then '1'
  else if c = '％' then '%'
  else c

/-- Python `str.strip()` on a character list. -/
def stripWS (cs : List Char) : List Char :=
  ((cs.dropWhile isSpaceC).reverse.dropWhile isSpaceC).reverse

/-- Embedding of `ocr._norm_num`: comma to dot, strip, misread substitutions
(O/o to 0, I/l to 1, full-width percent to ASCII percent), then `float()`. -/
def _norm_num (s : String) : Option ℚ :=
  if s = "" then none
  else floatParse ((stripWS (s.data.map (fun c => if c = ',' then '.' else c))).map fixGlyph)

/-- Search for the temperature decimal pattern in a string. -/
def searchT1 (s : String) : Option String := searchFrom tryT1 none s.data

/-- Search for the bare-integer temperature pattern in a string. -/
def searchT2 (s : String) : Option String := searchFrom tryT2 none s.data

/-- Search for the standalone 3-digit-run pattern in a string. -/
def searchT3 (s : String) : Option String := searchFrom tryT3 none s.data

/-- Search for the humidity pattern in a string. -/
def searchH (s : String) : Option String := searchFrom tryH none s.data

/-- Python `" ".join(tokens)`. -/
def joinTokens (tokens : List String) : String := String.intercalate " " tokens

/-- Second stage of `ocr._parse_temperature`: the first bare 2-3 digit
integer match, kept only when its value is truthy and within 10..45. -/
def stage2T (s : String) : Option ℚ :=
  match searchT2 s with
  | some g =>
    match _norm_num g with
    | some v => if v ≠ 0 ∧ 10 ≤ v ∧ v ≤ 45 then some v else none
    | none => none
  | none => none

/-- Implied-decimal reading of a 3-digit capture: `float(z[:2]) +
float(z[2:]) / 10.0`. -/
def impliedDecimal (z : String) : ℚ :=
  (digitsToNat (z.data.take 2) : ℚ) + (digitsToNat (z.data.drop 2) : ℚ) / 10

/-- Plain numeric value of a digit-run capture. -/
def threeDigitValue (z : String) : ℚ := (digitsToNat z.data : ℚ)

/-- Third stage of `ocr._parse_temperature`: the 281-to-28.1 digit-run
heuristic, kept only within 10..45. -/
def stage3T (s : String) : Option ℚ :=
  match searchT3 s with
  | some z =>
    if 10 ≤ impliedDecimal z ∧ impliedDecimal z ≤ 45 then some (impliedDecimal z) else none
  | none => none

/-- Embedding of `ocr._parse_temperature`: the decimal pattern is returned
unconditionally when it matches (its `_norm_num` result, with no range
filter); otherwise the range-filtered bare integer; otherwise the digit-run
heuristic. -/
def _parse_temperature (tokens : List String) : Option ℚ :=
  match searchT1 (joinTokens tokens) with
  | some g => _norm_num g
  | none =>
    match stage2T (joinTokens tokens) with
    | some v => some v
    | none => stage3T (joinTokens tokens)

/-- Embedding of `ocr._parse_humidity`: the first 1-3 digit match with an
optional percent sign, kept only within 0..100. -/
def _parse_humidity (tokens : List String) : Option ℚ :=
  match searchH (joinTokens tokens) with
  | some g =>
    match _norm_num g with
    | some v => if 0 ≤ v ∧ v ≤ 100 then some v else none
    | none => none
  | none => none

/-- One or two digits at the head: two tried greedily, no continuation
after the day group. -/
def parseDay : List Char → Option ℕ
  | a :: b :: _ =>
    if isDigitC a && isDigitC b then some (10 * digitVal a + digitVal b)
    else if isDigitC a then some (digitVal a) else none
  | [a] => if isDigitC a then some (digitVal a) else none
  | [] => none

/-- Month separator class of the date pattern: dot, dash, slash or the
Korean month character. -/
def isSepMC (c : Char) : Bool := c = '.' || c = '-' || c = '/' || c = '월'

/-- Year separator class of the date pattern: dot, dash, slash or the
Korean year character. -/
def isSepYC (c : Char) : Bool := c = '.' || c = '-' || c = '/' || c = '년'

/-- Month-then-day part of the date pattern: a greedy 1-2 digit month,
backtracking from two digits to one when the separator or day after it
fails, then a separator and a 1-2 digit day. -/
def parseMonthDay (cs : List Char) : Option (ℕ × ℕ) :=
  match cs with
  | a :: b :: rest =>
    if isDigitC a && isDigitC b then
      match (match rest with
             | s :: r => if isSepMC s then (parseDay r).map (fun dd => (10 * digitVal a + digitVal b, dd)) else none
             | [] => none) with
      | some x => some x
      | none => if isSepMC b then (parseDay rest).map (fun dd => (digitVal a, dd)) else none
    else if isDigitC a then
      if isSepMC b then (parseDay rest).map (fun dd => (digitVal a, dd)) else none
    else none
  | _ => none

/-- Position matcher for the date pattern: literal `20`, two digits, a year
separator, month, separator, day. -/
def tryDate (_ : Option Char) (cs : List Char) : Option (ℕ × ℕ × ℕ) :=
  match cs with
  | '2' :: '0' :: y3 :: y4 :: s1 :: rest =>
    if isDigitC y3 && isDigitC y4 && isSepYC s1 then
      (parseMonthDay rest).map (fun md => (2000 + 10 * digitVal y3 + digitVal y4, md.1, md.2))
    else none
  | _ => none

/-- Leap-year rule of the Gregorian calendar, as `datetime` uses it. -/
def isLeap (y : ℕ) : Bool := y % 4 = 0 && (y % 100 ≠ 0 || y % 400 = 0)

/-- Number of days of a month, as `datetime` validates the day against. -/
def daysInMonth (y mo : ℕ) : ℕ :=
  if mo = 2 then (if isLeap y then 29 else 28)
  else if mo = 4 ∨ mo = 6 ∨ mo = 9 ∨ mo = 11 then 30
  else 31

/-- Whether `datetime(y, mo, dd)` succeeds (the years reached here are
always 20xx, inside the `datetime` year range). -/
def validDate (y mo dd : ℕ) : Bool :=
  1 ≤ mo && mo ≤ 12 && 1 ≤ dd && dd ≤ daysInMonth y mo

/-- Zero-padded two-digit field of `strftime`. -/
def pad2 (n : ℕ) : String := if n < 10 then "0" ++ toString n else toString n

/-- Four-digit year field of `strftime`.  The year's zero padding is
platform-dependent in CPython for years below 1000; every year this
pipeline formats is 20xx (the OCR date pattern pins the century and EXIF
timestamps carry four-digit years), where all platforms agree with this
rendering. -/
def pad4 (n : ℕ) : String :=
  if n < 10 then "000" ++ toString n
  else if n < 100 then "00" ++ toString n
  else if n < 1000 then "0" ++ toString n
  else toString n

/-- The `%Y-%m-%d` rendering of a date. -/
def fmtDate (y mo dd : ℕ) : String := pad4 y ++ "-" ++ pad2 mo ++ "-" ++ pad2 dd

/-- Embedding of `ocr._extract_date`: remove spaces, search the date
pattern, build the date; an invalid calendar date raises inside `datetime`
and is caught, giving `None` (the search is not resumed). -/
def _extract_date (all_text : String) : Option String :=
  match searchFrom tryDate none (all_text.data.filter (fun c => c ≠ ' ')) with
  | some (y, mo, dd) => if validDate y mo dd then some (fmtDate y mo dd) else none
  | none => none

/-- Python `a or b` on optional float readings: a reading of `0.0` is falsy
and falls through to `b`, exactly as in `run_ocr` step 5. -/
def pyOrOpt (a b : Option ℚ) : Option ℚ :=
  match a with
  | some v => if v = 0 then b else some v
  | none => b

/-- The `%g` rendering of the readings in the `pretty` string.  The parsers
only produce integers or exact decimal fractions, far below the 6
significant digits where `%g` switches to exponent form. -/
def formatG (q : ℚ) : String :=
  if q.den = 1 then toString q.num
  else if (q * 10).den = 1 then
    let n := (q * 10).num.natAbs
    (if q < 0 then "-" else "") ++ toString (n / 10) ++ "." ++ toString (n % 10)
  else toString q.num ++ "/" ++ toString q.den

/-- Result dictionary of `ocr.run_ocr`. -/
structure OcrResult where
  raw_text : String
  pretty : Option String
  date : Option String
  temperature : Option ℚ
  humidity : Option ℚ
deriving DecidableEq

/-- Embedding of `ocr.run_ocr` from step 5 on: the image stages (display
location, binarization, ROI split, EasyOCR) are outside the embedding and
are represented by the three token lists they produce (temperature ROI,
humidity ROI, full frame).  Parsing, the `or` fallbacks, the date, the
`pretty` string and the result dictionary follow the source. -/
def run_ocr (top_tokens bot_tokens all_tokens : List String) : OcrResult :=
  let t := pyOrOpt (_parse_temperature top_tokens) (_parse_temperature all_tokens)
  let h := pyOrOpt (_parse_humidity bot_tokens) (_parse_humidity all_tokens)
  let date_str := _extract_date (joinTokens all_tokens)
  let pretty : Option String :=
    match t, h with
    | some tv, some hv => some (formatG tv ++ " / " ++ formatG hv)
    | _, _ => none
  { raw_text := "[TEMP ROI]\n" ++ joinTokens top_tokens ++ "\n\n" ++
      "[HUM ROI]\n" ++ joinTokens bot_tokens ++ "\n\n" ++
      "[FULL]\n" ++ joinTokens all_tokens
    pretty := pretty
    date := date_str
    temperature := t
    humidity := h }

/-- A parsed result record as `use_llm_if_needed` receives and returns it:
the reading fields are floats or `None` (`parse_fields` and `run_ocr`
produce no other shapes), plus the `llm_reason` entry the secondary stage
may add. -/
structure Parsed where
  temperature_c : Option ℚ
  humidity_pct : Option ℚ
  llm_reason : Option String
deriving DecidableEq

/-- The secondary model's normalized candidate (`out` in
`use_llm_if_needed`): float-or-`None` readings and a reason string. -/
structure Cand where
  temperature_c : Option ℚ
  humidity_pct : Option ℚ
  reason : String
deriving DecidableEq

/-- Embedding of `llm_helper.is_valid_temp`: `float(x)` in -30..60;
`float(None)` raises, giving `False`. -/
def is_valid_temp : Option ℚ → Bool
  | some v => decide (-30 ≤ v) && decide (v ≤ 60)
  | none => false

/-- Python `int()` truncation toward zero on a rational. -/
def truncInt (v : ℚ) : ℤ := if 0 ≤ v then ⌊v⌋ else ⌈v⌉

/-- Embedding of `llm_helper.is_valid_humi`: `int(float(x))` in 0..100;
`float(None)` raises, giving `False`. -/
def is_valid_humi : Option ℚ → Bool
  | some v => decide (0 ≤ truncInt v) && decide (truncInt v ≤ 100)
  | none => false

/-- Embedding of `llm_helper.merge_fields`: for each reading key, the
candidate value replaces the base value only when the base value is `None`,
an empty string or `0` and the candidate value is not `None` or empty (the
normalized candidate readings are floats or `None`, never strings); the
reason is always copied into `llm_reason`. -/
def merge_fields (base : Parsed) (cand : Cand) : Parsed :=
  let keep : Option ℚ → Option ℚ → Option ℚ := fun b c =>
    if (b = none ∨ b = some 0) ∧ c ≠ none then c else b
  { temperature_c := keep base.temperature_c cand.temperature_c
    humidity_pct := keep base.humidity_pct cand.humidity_pct
    llm_reason := some cand.reason }

/-- Python falsiness of the api_key argument: `None` or the empty string. -/
def apiKeyFalsy : Option String → Bool
  | none => true
  | some s => s = ""

/-- Embedding of `llm_helper.use_llm_if_needed`.  The network call and JSON
normalization inside the `try` block are outside the embedding and are
represented by an `Except` argument: `.ok cand` is a response that survived
`json.loads` and the float/int normalization, `.error e` is any raised
exception (transport error, timeout, non-JSON text, bad field types), which
the source catches, recording `llm_reason` and returning the primary
record. -/
def use_llm_if_needed (parsed : Parsed) (api_key : Option String)
    (llm : Except String Cand) : Parsed :=
  let temp := parsed.temperature_c
  let humi := parsed.humidity_pct
  let needs : Bool :=
    temp.isNone || !is_valid_temp temp || humi.isNone || !is_valid_humi humi
  if !needs || apiKeyFalsy api_key then parsed
  else
    match llm with
    | Except.ok cand => merge_fields parsed cand
    | Except.error e => { parsed with llm_reason := some ("LLM error: " ++ e) }

/-- Fixed-shape part of `strptime` with format `%Y:%m:%d %H:%M:%S`: a
four-digit year, then 1-2 digit fields within the ranges the format's
regular expressions and the `datetime` constructor jointly enforce (year
at least 1, month 1-12, day valid for the month, hour 0-23, minute 0-59,
second 0-59: the format's expression admits leap seconds 60-61 but the
`datetime` constructor then raises, and it rejects year 0), with the whole
string consumed.  Failure raises in the source and is caught. -/
def parse12 (cs : List Char) : Option (ℕ × List Char) :=
  match cs with
  | a :: b :: rest =>
    if isDigitC a && isDigitC b then some (10 * digitVal a + digitVal b, rest)
    else if isDigitC a then some (digitVal a, b :: rest)
    else none
  | [a] => if isDigitC a then some (digitVal a, []) else none
  | [] => none

/-- Two-digit-field chain of the EXIF timestamp after the year: month, day,
space, hour, minute, second, each separated as in `%Y:%m:%d %H:%M:%S`. -/
def parseExifTail (y : ℕ) (cs : List Char) : Option (ℕ × ℕ × ℕ) :=
  match parse12 cs with
  | some (mo, ':' :: r1) =>
    match parse12 r1 with
    | some (dd, ' ' :: r2) =>
      match parse12 r2 with
      | some (hh, ':' :: r3) =>
        match parse12 r3 with
        | some (mi, ':' :: r4) =>
          match parse12 r4 with
          | some (ss, []) =>
            if 1 ≤ y && validDate y mo dd && hh ≤ 23 && mi ≤ 59 && ss ≤ 59 then some (y, mo, dd)
            else none
          | _ => none
        | _ => none
      | _ => none
    | _ => none
  | _ => none

/-- The `strptime(dt_str, "%Y:%m:%d %H:%M:%S")` parse of an EXIF timestamp,
yielding the date triple when it succeeds. -/
def strptimeExif (s : String) : Option (ℕ × ℕ × ℕ) :=
  match s.data with
  | y1 :: y2 :: y3 :: y4 :: ':' :: rest =>
    if isDigitC y1 && isDigitC y2 && isDigitC y3 && isDigitC y4 then
      parseExifTail (1000 * digitVal y1 + 100 * digitVal y2 + 10 * digitVal y3 + digitVal y4) rest
    else none
  | _ => none

/-- Embedding of `app_llm.extract_date_from_exif`.  The PIL/EXIF tag lookup
is outside the embedding: `dt_str` is the first present of the
`DateTimeOriginal`/`DateTime`/`DateTimeDigitized` tags (or `none`), and
`today` is `datetime.now().strftime("%Y-%m-%d")`.  A falsy tag (absent or
empty) and any parse failure both yield `today`. -/
def extract_date_from_exif (dt_str : Option String) (today : String) : String :=
  match dt_str with
  | none => today
  | some s =>
    if s = "" then today
    else
      match strptimeExif s with
      | some (y, mo, dd) => fmtDate y mo dd
      | none => today


/-- A successful leftmost search comes from a successful position match. -/
theorem searchFrom_some {α : Type} (f : Option Char → List Char → Option α) :
    ∀ (prev : Option Char) (cs : List Char) (r : α),
      searchFrom f prev cs = some r → ∃ p c, f p c = some r := by
  intro prev cs
  induction cs generalizing prev with
  | nil =>
    intro r h
    exact ⟨prev, [], h⟩
  | cons c rest ih =>
    intro r h
    rw [searchFrom] at h
    rcases hf : f prev (c :: rest) with _ | v
    · rw [hf] at h
      exact ih (some c) r h
    · rw [hf] at h
      exact ⟨prev, c :: rest, hf.trans h⟩

/-- A capture of the 3-digit-run pattern is exactly three digit characters. -/
theorem tryT3_digits (p : Option Char) (cs : List Char) (z : String)
    (h : tryT3 p cs = some z) :
    ∃ a b c, z = ⟨[a, b, c]⟩ ∧ isDigitC a = true ∧ isDigitC b = true ∧ isDigitC c = true := by
  match cs with
  | [] => simp [tryT3] at h
  | [a] => simp [tryT3] at h
  | [a, b] => simp [tryT3] at h
  | a :: b :: c :: rest =>
    rw [tryT3] at h
    by_cases hc :
        (boundaryBefore p a && isDigitC a && isDigitC b && isDigitC c && bAfterD rest) = true
    · rw [if_pos hc] at h
      simp only [Bool.and_eq_true] at hc
      exact ⟨a, b, c, (Option.some.inj h).symm, hc.1.1.1.2, hc.1.1.2, hc.1.2⟩
    · rw [if_neg hc] at h
      exact absurd h (by simp)

/-- A some-result of the bare-integer temperature stage lies in 10..45. -/
theorem stage2T_bounds (s : String) (w : ℚ) (h : stage2T s = some w) :
    10 ≤ w ∧ w ≤ 45 := by
  unfold stage2T at h
  split at h
  · split at h
    · split at h
      · next hc => exact (Option.some.inj h) ▸ hc.2
      · exact absurd h (by simp)
    · exact absurd h (by simp)
  · exact absurd h (by simp)

/-- A some-result of the digit-run temperature stage lies in 10..45. -/
theorem stage3T_bounds (s : String) (w : ℚ) (h : stage3T s = some w) :
    10 ≤ w ∧ w ≤ 45 := by
  unfold stage3T at h
  split at h
  · split at h
    · next hc => exact (Option.some.inj h) ▸ hc
    · exact absurd h (by simp)
  · exact absurd h (by simp)

/-- C2 (confirmed): in the result of `run_ocr`, the `pretty` display string
is non-null exactly when both the temperature and the humidity readings are
non-null; in particular an input where only humidity is recovered has a
null display string. -/
theorem pretty_iff_both_readings (top bot all : List String) :
    (run_ocr top bot all).pretty ≠ none ↔
      ((run_ocr top bot all).temperature ≠ none ∧
        (run_ocr top bot all).humidity ≠ none) := by
  rcases htv : pyOrOpt (_parse_temperature top) (_parse_temperature all) with _ | tv <;>
    rcases hhv : pyOrOpt (_parse_humidity bot) (_parse_humidity all) with _ | hv <;>
      simp [run_ocr, htv, hhv]

/-- C3 (counterexample): the decimal-pattern branch of `_parse_temperature`
is not range-filtered: the token list `["99.9"]` yields the temperature
99.9, which lies outside the claimed plausible bound of roughly 50. -/
theorem temp_decimal_unfiltered_counterexample :
    _parse_temperature ["99.9"] = some (999 / 10) ∧ ¬((999 : ℚ) / 10 ≤ 50) := by
  constructor
  · have h : _parse_temperature ["99.9"]
        = some (((99 : ℕ) : ℚ) + ((9 : ℕ) : ℚ) / 10 ^ (['9'].length)) := rfl
    rw [h]
    norm_num
  · norm_num

/-- C3 (amended): `_parse_humidity` never returns a value outside 0..100;
`_parse_temperature` stays within 10..45 on its bare-integer and digit-run
branches, i.e. whenever the unfiltered decimal pattern does not match. -/
theorem parser_range_bounds :
    (∀ ts v, _parse_humidity ts = some v → 0 ≤ v ∧ v ≤ 100) ∧
    (∀ ts v, searchT1 (joinTokens ts) = none → _parse_temperature ts = some v →
      10 ≤ v ∧ v ≤ 45) := by
  constructor
  · intro ts v h
    unfold _parse_humidity at h
    split at h
    · split at h
      · split at h
        · next hc => exact (Option.some.inj h) ▸ hc
        · exact absurd h (by simp)
      · exact absurd h (by simp)
    · exact absurd h (by simp)
  · intro ts v h1 h
    unfold _parse_temperature at h
    rw [h1] at h
    rcases h2 : stage2T (joinTokens ts) with _ | w <;> rw [h2] at h
    · exact stage3T_bounds _ v h
    · obtain rfl : w = v := Option.some.inj h
      exact stage2T_bounds _ w h2

/-- C3 (witness): concrete instances of both range bounds, at the humidity
token `"58"` and the temperature token `"12"`. -/
theorem parser_range_bounds_witness :
    ((0 : ℚ) ≤ 58 ∧ (58 : ℚ) ≤ 100) ∧ ((10 : ℚ) ≤ 12 ∧ (12 : ℚ) ≤ 45) := by
  have h58 : _parse_humidity ["58"] = some 58 := by
    have e : _parse_humidity ["58"]
        = (if (0 : ℚ) ≤ ((58 : ℕ) : ℚ) ∧ ((58 : ℕ) : ℚ) ≤ 100
           then some ((58 : ℕ) : ℚ) else none) := rfl
    rw [e, if_pos (by norm_num)]
    norm_num
  have h1 : searchT1 (joinTokens ["12"]) = none := by decide
  have h2 : stage2T (joinTokens ["12"]) = some 12 := by
    have e : stage2T (joinTokens ["12"])
        = (if ((12 : ℕ) : ℚ) ≠ 0 ∧ 10 ≤ ((12 : ℕ) : ℚ) ∧ ((12 : ℕ) : ℚ) ≤ 45
           then some ((12 : ℕ) : ℚ) else none) := rfl
    rw [e, if_pos (by norm_num)]
    norm_num
  have h12 : _parse_temperature ["12"] = some 12 := by
    simp only [_parse_temperature, h1, h2]
  exact ⟨parser_range_bounds.1 ["58"] 58 h58, parser_range_bounds.2 ["12"] 12 h1 h12⟩

/-- C4 (confirmed): when the parsed record already carries a temperature in
-30..60 and a humidity in 0..100, the gate condition is false and
`use_llm_if_needed` returns the record unchanged for every API key and
every possible behaviour of the secondary model. -/
theorem llm_gate_skips_valid (parsed : Parsed) (t h : ℚ)
    (ht : parsed.temperature_c = some t) (ht1 : -30 ≤ t) (ht2 : t ≤ 60)
    (hh : parsed.humidity_pct = some h) (hh1 : 0 ≤ h) (hh2 : h ≤ 100)
    (api_key : Option String) (llm : Except String Cand) :
    use_llm_if_needed parsed api_key llm = parsed := by
  have hvt : is_valid_temp (some t) = true := by
    simp only [is_valid_temp, Bool.and_eq_true, decide_eq_true_eq]
    exact ⟨ht1, ht2⟩
  have hvh : is_valid_humi (some h) = true := by
    simp only [is_valid_humi, Bool.and_eq_true, decide_eq_true_eq, truncInt, if_pos hh1]
    constructor
    · exact Int.le_floor.mpr (by exact_mod_cast hh1)
    · exact_mod_cast (Int.floor_le h).trans hh2
  unfold use_llm_if_needed
  simp [ht, hh, hvt, hvh]

/-- C4 (witness): a record with temperature 23 and humidity 58 passes
through untouched even with an API key present and a secondary model that
would fail. -/
theorem llm_gate_skips_valid_witness :
    use_llm_if_needed ⟨some 23, some 58, none⟩ (some "key") (Except.error "timeout")
      = ⟨some 23, some 58, none⟩ :=
  llm_gate_skips_valid ⟨some 23, some 58, none⟩ 23 58 rfl (by norm_num) (by norm_num)
    rfl (by norm_num) (by norm_num) (some "key") (Except.error "timeout")

/-- C5 (confirmed): whenever the secondary call raises (transport error,
timeout, non-JSON or unparseable response), `use_llm_if_needed` returns a
record with the primary temperature and humidity candidates untouched,
whether or not the gate fired; the function is total, so it never
propagates the failure. -/
theorem llm_failure_keeps_primary (parsed : Parsed) (api_key : Option String) (e : String) :
    (use_llm_if_needed parsed api_key (Except.error e)).temperature_c = parsed.temperature_c ∧
    (use_llm_if_needed parsed api_key (Except.error e)).humidity_pct = parsed.humidity_pct := by
  unfold use_llm_if_needed
  split
  · next cand heq => exact absurd heq (by simp)
  · next e2 heq =>
    dsimp only
    constructor <;> (split <;> simp)

/-- C1 (counterexample): with the implausible primary temperature 99.9 the
gate fires, but a successful secondary response (23.1, 58) does not replace
the primary value: `merge_fields` keeps 99.9 because it only fills fields
that are `None`, empty or `0`. -/
theorem llm_override_counterexample :
    (use_llm_if_needed ⟨some (999 / 10), some 58, none⟩ (some "key")
        (Except.ok ⟨some (231 / 10), some 58, "fixed"⟩)).temperature_c = some (999 / 10) ∧
      (999 : ℚ) / 10 ≠ 231 / 10 := by
  have hvt : is_valid_temp (some ((999 : ℚ) / 10)) = false := by
    simp only [is_valid_temp, Bool.and_eq_false_iff, decide_eq_false_iff_not]
    right
    norm_num
  constructor
  · unfold use_llm_if_needed merge_fields
    simp only [hvt, show apiKeyFalsy (some "key") = false from rfl]
    norm_num
    exact fun hx => absurd hx (by simp)
  · norm_num

/-- C1 (amended): the secondary values land in the merged record only for
fields whose primary value is missing (`None`, empty or `0`); in
particular, when both primary readings are `None` and the gate fires with a
non-empty API key, a parsed secondary pair is copied into the result.  A
present non-zero primary value, even an implausible one, is kept. -/
theorem llm_fills_missing_fields (parsed : Parsed) (cand : Cand) (k : String) (a b : ℚ)
    (hp1 : parsed.temperature_c = none) (hp2 : parsed.humidity_pct = none) (hk : k ≠ "")
    (hc1 : cand.temperature_c = some a) (hc2 : cand.humidity_pct = some b) :
    (use_llm_if_needed parsed (some k) (Except.ok cand)).temperature_c = some a ∧
    (use_llm_if_needed parsed (some k) (Except.ok cand)).humidity_pct = some b := by
  unfold use_llm_if_needed merge_fields apiKeyFalsy
  simp [hp1, hp2, hk, hc1, hc2]

/-- C1 (witness): an all-`None` primary record merged with the secondary
pair (23.1, 58). -/
theorem llm_fills_missing_fields_witness :
    (use_llm_if_needed ⟨none, none, none⟩ (some "key")
        (Except.ok ⟨some (231 / 10), some 58, "r"⟩)).temperature_c = some (231 / 10) ∧
    (use_llm_if_needed ⟨none, none, none⟩ (some "key")
        (Except.ok ⟨some (231 / 10), some 58, "r"⟩)).humidity_pct = some 58 :=
  llm_fills_missing_fields ⟨none, none, none⟩ ⟨some (231 / 10), some 58, "r"⟩ "key"
    (231 / 10) 58 rfl rfl (by decide) rfl rfl

/-- C10 (confirmed): `merge_fields` treats a base reading of exactly 0 the
same as a missing one: a non-`None` secondary candidate overwrites it, for
the temperature field and for the humidity field alike. -/
theorem merge_zero_treated_missing (base : Parsed) (cand : Cand) :
    (base.temperature_c = some 0 → cand.temperature_c ≠ none →
      (merge_fields base cand).temperature_c = cand.temperature_c) ∧
    (base.humidity_pct = some 0 → cand.humidity_pct ≠ none →
      (merge_fields base cand).humidity_pct = cand.humidity_pct) := by
  unfold merge_fields
  constructor <;> intro h1 h2 <;> simp [h1, h2]

/-- C10 (witness): a legitimate zero-degree, zero-percent base record is
overwritten by the secondary candidate (2.5, 60). -/
theorem merge_zero_treated_missing_witness :
    (merge_fields ⟨some 0, some 0, none⟩ ⟨some (5 / 2), some 60, "r"⟩).temperature_c
        = some (5 / 2) ∧
    (merge_fields ⟨some 0, some 0, none⟩ ⟨some (5 / 2), some 60, "r"⟩).humidity_pct
        = some 60 := by
  have h := merge_zero_treated_missing ⟨some 0, some 0, none⟩ ⟨some (5 / 2), some 60, "r"⟩
  exact ⟨h.1 rfl (by simp), h.2 rfl (by simp)⟩

/-- C6 (confirmed): when no higher-priority pattern fires (the decimal
pattern finds nothing and the bare-integer stage yields nothing) and the
joined tokens contain a standalone 3-digit run, `_parse_temperature`
interprets the run with an implied decimal — kept only when plausible — and
the undivided 3-digit value itself is never the result. -/
theorem temp_digit_run_heuristic (ts : List String) (z : String)
    (h1 : searchT1 (joinTokens ts) = none)
    (h2 : stage2T (joinTokens ts) = none)
    (h3 : searchT3 (joinTokens ts) = some z) :
    _parse_temperature ts =
      (if 10 ≤ impliedDecimal z ∧ impliedDecimal z ≤ 45
       then some (impliedDecimal z) else none) ∧
    ∀ q, _parse_temperature ts = some q → q ≠ threeDigitValue z := by
  have hres : _parse_temperature ts =
      (if 10 ≤ impliedDecimal z ∧ impliedDecimal z ≤ 45
       then some (impliedDecimal z) else none) := by
    simp only [_parse_temperature, h1, h2, stage3T, h3]
  refine ⟨hres, ?_⟩
  intro q hq
  rw [hres] at hq
  obtain ⟨p, c, hpc⟩ := searchFrom_some tryT3 none (joinTokens ts).data z h3
  obtain ⟨a, b, c3, hz, ha, hb, hc3⟩ := tryT3_digits p c z hpc
  by_cases hcond : 10 ≤ impliedDecimal z ∧ impliedDecimal z ≤ 45
  · rw [if_pos hcond] at hq
    obtain rfl : impliedDecimal z = q := Option.some.inj hq
    have hkey : threeDigitValue z = 10 * impliedDecimal z := by
      subst hz
      simp only [threeDigitValue, impliedDecimal, digitsToNat, List.foldl]
      push_cast
      ring
    intro hqz
    rw [hkey] at hqz
    linarith [hcond.1]
  · rw [if_neg hcond] at hq
    exact absurd hq (by simp)

/-- C6 (witness): the token `"235"` yields 23.5, the implied-decimal
reading, not 235. -/
theorem temp_digit_run_heuristic_witness : _parse_temperature ["235"] = some (47 / 2) := by
  have h1 : searchT1 (joinTokens ["235"]) = none := by decide
  have h2 : stage2T (joinTokens ["235"]) = none := by
    have e : stage2T (joinTokens ["235"])
        = (if ((235 : ℕ) : ℚ) ≠ 0 ∧ 10 ≤ ((235 : ℕ) : ℚ) ∧ ((235 : ℕ) : ℚ) ≤ 45
           then some ((235 : ℕ) : ℚ) else none) := rfl
    rw [e, if_neg (by norm_num)]
  have h3 : searchT3 (joinTokens ["235"]) = some "235" := by decide
  have himp : impliedDecimal "235" = 47 / 2 := by
    have e : impliedDecimal "235" = ((23 : ℕ) : ℚ) + ((5 : ℕ) : ℚ) / 10 := rfl
    rw [e]
    norm_num
  have h := (temp_digit_run_heuristic ["235"] "235" h1 h2 h3).1
  rw [h, himp, if_pos (by norm_num)]

/-- C7 (counterexample): misread substitution happens after pattern
matching, not before it, so the token `"O2.5"` — whose `O` is not a digit —
matches no temperature pattern and parses to `None` rather than 2.5; the
humidity pattern captures only the trailing `"5"`. -/
theorem norm_after_match_counterexample :
    _parse_temperature ["O2.5"] = none ∧ _parse_humidity ["O2.5"] = some 5 := by
  constructor
  · decide
  · have e : _parse_humidity ["O2.5"]
        = (if (0 : ℚ) ≤ ((5 : ℕ) : ℚ) ∧ ((5 : ℕ) : ℚ) ≤ 100
           then some ((5 : ℕ) : ℚ) else none) := rfl
    rw [e, if_pos (by norm_num)]
    norm_num

/-- C7 (amended): `_norm_num` applies the misread substitutions to the
captured group after matching: on the already-digit token `"02.5"` the
pipeline parses 2.5, a comma decimal `"23,5"` is matched by the pattern
itself (which accepts the comma) and normalized to 23.5, and `_norm_num`
alone does map `"O2.5"` to 2.5 — but no pattern ever hands it that
token. -/
theorem norm_applied_to_captured_group :
    _norm_num "O2.5" = some (5 / 2) ∧ _parse_temperature ["02.5"] = some (5 / 2) ∧
      _parse_temperature ["23,5"] = some (47 / 2) := by
  refine ⟨?_, ?_, ?_⟩
  · have e : _norm_num "O2.5"
        = some (((2 : ℕ) : ℚ) + ((5 : ℕ) : ℚ) / 10 ^ (['5'].length)) := rfl
    rw [e]
    norm_num
  · have e : _parse_temperature ["02.5"]
        = some (((2 : ℕ) : ℚ) + ((5 : ℕ) : ℚ) / 10 ^ (['5'].length)) := rfl
    rw [e]
    norm_num
  · have e : _parse_temperature ["23,5"]
        = some (((23 : ℕ) : ℚ) + ((5 : ℕ) : ℚ) / 10 ^ (['5'].length)) := rfl
    rw [e]
    norm_num

/-- C8 (counterexample): with the two in-range integer candidates 12 and 34
in the token list, `_parse_temperature` returns the leftmost match 12, not
the larger value 34 the claimed tie-break would pick. -/
theorem leftmost_not_largest_counterexample :
    _parse_temperature ["12", "34"] = some 12 ∧ (12 : ℚ) ≠ 34 := by
  constructor
  · have h1 : searchT1 (joinTokens ["12", "34"]) = none := by decide
    have h2 : stage2T (joinTokens ["12", "34"]) = some 12 := by
      have e : stage2T (joinTokens ["12", "34"])
          = (if ((12 : ℕ) : ℚ) ≠ 0 ∧ 10 ≤ ((12 : ℕ) : ℚ) ∧ ((12 : ℕ) : ℚ) ≤ 45
             then some ((12 : ℕ) : ℚ) else none) := rfl
      rw [e, if_pos (by norm_num)]
      norm_num
    simp only [_parse_temperature, h1, h2]
  · norm_num

/-- C8 (amended): a decimal-bearing match always wins over bare integers
because its pattern is tried first and returned unconditionally; otherwise
the first (leftmost) bare-integer match is returned when it passes the
range filter — there is no candidate collection and no larger-value
tie-break. -/
theorem decimal_priority_and_leftmost :
    (∀ ts g, searchT1 (joinTokens ts) = some g → _parse_temperature ts = _norm_num g) ∧
    (∀ ts g v, searchT1 (joinTokens ts) = none → searchT2 (joinTokens ts) = some g →
      _norm_num g = some v → v ≠ 0 → 10 ≤ v → v ≤ 45 → _parse_temperature ts = some v) := by
  constructor
  · intro ts g h
    simp only [_parse_temperature, h]
  · intro ts g v h1 h2 h3 h4 h5 h6
    have hs : stage2T (joinTokens ts) = some v := by
      simp only [stage2T, h2, h3]
      rw [if_pos ⟨h4, h5, h6⟩]
    simp only [_parse_temperature, h1, hs]

/-- C8 (witness): the later decimal `"22.5"` beats the earlier integer
`"30"`, and between the integers `"12"` and `"15"` the leftmost wins. -/
theorem decimal_priority_and_leftmost_witness :
    _parse_temperature ["30", "22.5"] = _norm_num "22.5" ∧
      _parse_temperature ["12", "15"] = some 12 := by
  have hn : _norm_num "12" = some 12 := by
    have e : _norm_num "12" = some ((12 : ℕ) : ℚ) := rfl
    rw [e]
    norm_num
  exact ⟨decimal_priority_and_leftmost.1 ["30", "22.5"] "22.5" (by decide),
    decimal_priority_and_leftmost.2 ["12", "15"] "12" 12 (by decide) (by decide) hn
      (by norm_num) (by norm_num) (by norm_num)⟩

/-- C9 (counterexample): when the recognized text contains no date, the
date field of the `run_ocr` result is `None` — not the current date the
claim promises. -/
theorem date_null_counterexample : (run_ocr [] [] []).date = none := by decide

/-- C9 (amended): date extraction is split across two paths that are never
combined: the EXIF extractor consults only capture-time metadata and
returns the current date whenever the tag is absent, empty or unparseable
(never null), while the OCR-text extractor consults only recognized text
and run_ocr's date is null on failure. -/
theorem date_extraction_split (today : String) :
    extract_date_from_exif none today = today ∧
    extract_date_from_exif (some "") today = today ∧
    (∀ s, s ≠ "" → strptimeExif s = none → extract_date_from_exif (some s) today = today) := by
  refine ⟨rfl, ?_, ?_⟩
  · simp [extract_date_from_exif]
  · intro s hs hp
    simp only [extract_date_from_exif]
    rw [if_neg hs, hp]

/-- C9 (witness): an unparseable EXIF timestamp falls back to the supplied
current date. -/
theorem date_extraction_split_witness :
    extract_date_from_exif (some "garbage") "2026-10-12" = "2026-10-12" :=
  (date_extraction_split "2026-10-12").2.2 "garbage" (by decide) (by decide)
